import Mathlib

/-!
Shallow embedding of the retry / throttle / log round-trippers of the
`maruel/roundtrippers` Go package, together with theorems checking the
natural-language specification against the code.

Modelling conventions:
* `time.Time` and `time.Duration` are `Int` nanoseconds.  Go's `int64`
  arithmetic wraps on overflow (two's complement); where a duration
  multiplication can overflow we apply `wrap64` explicitly.
* Go errors are the inductive `GoError`; `GoError.nil` is the nil error.
* Contexts, clocks and select-statement outcomes are oracle functions
  (`ctxErr`, `clock`, `waitCancel`) indexed by the loop iteration, which
  makes the nondeterministic schedule of the Go program an explicit input.
* Streams (request bodies) are `Except GoError (List UInt8)`: reading the
  whole stream either yields its bytes or an I/O error.
-/

/-- One second in nanoseconds (`time.Second`). -/
def second : Int := 1000000000

/-- Two's-complement wraparound of Go `int64` arithmetic. -/
def wrap64 (n : Int) : Int := (n + 2 ^ 63) % 2 ^ 64 - 2 ^ 63

/-- Errors returned by Go code, as the retry code observes them:
`nil`, an `*url.Error` (recording whether its wrapped error is a
`*tls.CertificateVerificationError`, and its `Error()` string), or any
other error with its message. -/
inductive GoError where
  | nil : GoError
  | urlError (certVerification : Bool) (msg : String) : GoError
  | other (msg : String) : GoError
deriving DecidableEq

/-- Whether `pat` occurs as a contiguous sublist of `s`. -/
def isSubList (pat : List Char) : List Char → Bool
  | [] => pat.isEmpty
  | c :: rest => pat.isPrefixOf (c :: rest) || isSubList pat rest

/-- `regexp` unanchored substring match for the patterns
`unsupported protocol scheme`, `invalid header`,
`certificate is not trusted` (plain-text regexes). -/
def containsSubstr (pat s : String) : Bool :=
  isSubList pat.toList s.toList

/-- Match of the Go regex `stopped after \d+ redirects\z`: somewhere in the
string, the literal `stopped after `, then one or more digits, then
` redirects` ending the string. -/
def redirectsMatch (s : String) : Bool :=
  let l := s.toList
  let pat := "stopped after ".toList
  (List.range (l.length + 1)).any fun k =>
    let t := l.drop k
    pat.isPrefixOf t &&
      (let r := t.drop pat.length
       !(r.takeWhile Char.isDigit).isEmpty &&
         (r.dropWhile Char.isDigit == " redirects".toList))

/-- `isNotRetriableError` from the source: a `*url.Error` wrapping a TLS
certificate-verification error, or whose message matches one of the four
regexes (`redirectsErrorRe`, `schemeErrorRe`, `invalidHeaderErrorRe`,
`notTrustedErrorRe`); every other error is not in the class. -/
def isNotRetriableError : GoError → Bool
  | GoError.urlError certVerification msg =>
      certVerification || redirectsMatch msg ||
        containsSubstr "unsupported protocol scheme" msg ||
        containsSubstr "invalid header" msg ||
        containsSubstr "certificate is not trusted" msg
  | _ => false

/-- `strconv.ParseInt(s, 10, 64)`: optional sign, one or more decimal
digits, value within the `int64` range; `none` on any syntax or range
error. -/
def parseInt64 (s : String) : Option Int :=
  let l := s.toList
  match l with
  | [] => Option.none
  | c :: rest =>
    let sign : Int := if c == '-' then -1 else 1
    let digits := if c == '-' || c == '+' then rest else l
    if digits.isEmpty || !digits.all Char.isDigit then Option.none
    else
      let n : Int := digits.foldl (fun a d => a * 10 + (Int.ofNat (d.toNat - 48))) 0
      let v := sign * n
      if -(2 ^ 63) ≤ v ∧ v < 2 ^ 63 then some v else Option.none


/-- Reading a request-body stream to the end yields its bytes or an I/O
error (`io.ReadAll`). -/
abbrev ByteStream := Except GoError (List UInt8)

deriving instance DecidableEq for Except

/-- The part of an `http.Response` the retry code inspects: `StatusCode`
and `Header.Get("Retry-After")` (empty string when the header is absent). -/
structure Response where
  statusCode : Int
  retryAfter : String
deriving DecidableEq

/-- The part of an `http.Request` the retry code touches: `Body` (a
one-shot stream, `Option.none` when the request has no body) and `GetBody`
(the replay factory: each call yields a fresh reader, modelled by the
deterministic result of reading that fresh reader to the end). -/
structure Request where
  body : Option ByteStream
  getBody : Option ByteStream
deriving DecidableEq

/-- `ExponentialBackoff` configuration.  `Exp` is a `float64` in Go;
it is modelled at non-negative integer values, where `math.Pow` is exact
as long as the result stays in `float64`'s integer range. -/
structure ExponentialBackoff where
  MaxTryCount : Int
  MaxDuration : Int
  Exp : Nat
deriving DecidableEq

/-- `DefaultRetryPolicy = ExponentialBackoff{MaxTryCount: 3, MaxDuration: 10 * time.Second, Exp: 2}`. -/
def DefaultRetryPolicy : ExponentialBackoff :=
  { MaxTryCount := 3, MaxDuration := 10 * second, Exp := 2 }

/-- `ExponentialBackoff.ShouldRetry`.  `cancelled` is whether
`ctx.Err() != nil` at the call; `now` is the wall clock at the call, so
`time.Since(start)` is `now - start`. -/
def ExponentialBackoff.ShouldRetry (e : ExponentialBackoff) (cancelled : Bool)
    (now start : Int) (tryIdx : Nat) (err : GoError) (resp : Option Response) : Bool :=
  if (tryIdx : Int) ≥ e.MaxTryCount ∨ e.MaxDuration < now - start ∨ cancelled ∨ isNotRetriableError err then
    false
  else
    match resp with
    | Option.none => false
    | some resp2 =>
      resp2.statusCode == 429 || resp2.statusCode == 502 ||
        resp2.statusCode == 503 || resp2.statusCode == 504 ||
        resp2.statusCode == 529

/-- `ExponentialBackoff.Backoff`:
`time.Duration(math.Pow(e.Exp, float64(try))) * time.Second`.
The `int64` multiplication by `time.Second` wraps on overflow (`wrap64`).
For `Exp^try ≥ 2^63` the Go float-to-int64 conversion is
implementation-defined; theorems about `Backoff` stay below that range. -/
def ExponentialBackoff.Backoff (e : ExponentialBackoff) (start : Int) (tryIdx : Nat) : Int :=
  wrap64 ((e.Exp : Int) ^ tryIdx * second)

/-- `parseRetryAfterHeader`.  The RFC 1123 date parse
(`time.Parse(time.RFC1123, header)`) is standard-library code outside this
repository, abstracted as the oracle `pd`; `now` is the wall clock, so
`time.Until(retryTime)` is `retryTime - now`.  The integer branch computes
`time.Second * time.Duration(sleep)`, which wraps on `int64` overflow. -/
def parseRetryAfterHeader (pd : String → Option Int) (now : Int) (header : String) : Int × Bool :=
  match parseInt64 header with
  | some sleep => if 0 < sleep then (wrap64 (second * sleep), true) else (0, false)
  | Option.none =>
    match pd header with
    | some retryTime => if 0 < retryTime - now then (retryTime - now, true) else (0, false)
    | Option.none => (0, false)

/-- The sleep selection of one iteration of `Retry.RoundTrip`'s loop:
use the `Retry-After` header when the previous response exists and the
header parses, otherwise `policy.Backoff(start, try)`. -/
def retrySleep (e : ExponentialBackoff) (pd : String → Option Int)
    (now start : Int) (tryIdx : Nat) (resp : Option Response) : Int :=
  match resp with
  | some resp2 =>
    let pr := parseRetryAfterHeader pd now resp2.retryAfter
    if pr.2 then pr.1 else e.Backoff start tryIdx
  | Option.none => e.Backoff start tryIdx

/-- `cloneRequestWithBody`: clone the request (`GetBody` carried over);
when a body exists without a replay factory, read the whole body
(failing with the read's I/O error), and install both a buffered body and
a replay factory returning the buffered bytes. -/
def cloneRequestWithBody (req : Request) : Except GoError Request :=
  match req.body, req.getBody with
  | some stream, Option.none =>
    match stream with
    | Except.error e => Except.error e
    | Except.ok bs => Except.ok ⟨some (Except.ok bs), some (Except.ok bs)⟩
  | _, _ => Except.ok req

/-- Result of `Retry.RoundTrip`, with two ghost traces: `sent` is the
`req.Body` value at each invocation of the wrapped transport (in order),
and `slept` the duration of each completed inter-attempt wait. -/
structure RetryResult where
  resp : Option Response
  err : GoError
  sent : List (Option ByteStream)
  slept : List Int
deriving DecidableEq

/-- The retry loop of `Retry.RoundTrip` (`for try := 0; policy.ShouldRetry(...); try++`).
`transport n b` is the wrapped transport's result on its `n`-th invocation
with request body `b`; `clock try` the wall clock at iteration `try`;
`ctxErr try` whether `ctx.Err() != nil` at the `ShouldRetry` check;
`waitCancel try` whether `ctx.Done()` wins the select racing the sleep.
The fuel is a proof artifact: `ShouldRetry` forces `try < MaxTryCount`, so
with fuel `MaxTryCount.toNat - try` the zero-fuel branch coincides with the
loop's own exit. -/
def retryLoop (e : ExponentialBackoff)
    (transport : Nat → Option ByteStream → Option Response × GoError)
    (clock : Nat → Int) (ctxErr : Nat → Bool) (waitCancel : Nat → Bool)
    (pd : String → Option Int) (start : Int) (getBody : Option ByteStream) :
    Nat → Option ByteStream → Option Response → GoError → Nat → RetryResult
  | 0, _, resp, err, _ => ⟨resp, err, [], []⟩
  | fuel + 1, body, resp, err, tryIdx =>
    if e.ShouldRetry (ctxErr tryIdx) (clock tryIdx) start tryIdx err resp then
      -- `if req.GetBody != nil { if req.Body, err2 = req.GetBody(); err2 != nil { return resp, err2 } }`
      let refreshed : Except GoError (Option ByteStream) :=
        match getBody with
        | some (Except.error e2) => Except.error e2
        | some (Except.ok b) => Except.ok (some (Except.ok b))
        | Option.none => Except.ok body
      match refreshed with
      | Except.error e2 => ⟨resp, e2, [], []⟩
      | Except.ok body2 =>
        if waitCancel tryIdx then
          -- ctx.Done() won the select: return the previous try's response untouched.
          ⟨resp, err, [], []⟩
        else
          let o := transport (tryIdx + 1) body2
          let rest := retryLoop e transport clock ctxErr waitCancel pd start getBody fuel body2 o.1 o.2 (tryIdx + 1)
          ⟨rest.resp, rest.err, body2 :: rest.sent,
            retrySleep e pd (clock tryIdx) start tryIdx resp :: rest.slept⟩
    else ⟨resp, err, [], []⟩

/-- The `Retry` round-tripper; `policy = Option.none` models the nil
`Policy` field, defaulted to `DefaultRetryPolicy`.  The wrapped
`Transport` is passed to `RoundTrip` as a function argument. -/
structure Retry where
  policy : Option ExponentialBackoff

/-- `Retry.RoundTrip`: default the policy, clone the request ensuring a
replay factory (returning the buffering error with no attempt on
failure), issue attempt 0, then run the retry loop. -/
def Retry.RoundTrip (r : Retry)
    (transport : Nat → Option ByteStream → Option Response × GoError)
    (clock : Nat → Int) (ctxErr : Nat → Bool) (waitCancel : Nat → Bool)
    (pd : String → Option Int) (start : Int) (req : Request) : RetryResult :=
  let e := r.policy.getD DefaultRetryPolicy
  match cloneRequestWithBody req with
  | Except.error er => ⟨Option.none, er, [], []⟩
  | Except.ok req2 =>
    let o := transport 0 req2.body
    let res := retryLoop e transport clock ctxErr waitCancel pd start req2.getBody
      e.MaxTryCount.toNat req2.body o.1 o.2 0
    ⟨res.resp, res.err, req2.body :: res.sent, res.slept⟩

/-- The scheduling section of `Throttle.RoundTrip`, executed under the
lock: given the pacing `window`, the stored `lastRequest` (0 is the zero
`time.Time`) and `now`, return `(sleep, newLastRequest)`:
`sleep = window - elapsed` when a previous slot exists and
`elapsed < window`, else 0; the new slot is reserved at `now + sleep`. -/
def throttleStep (window lastRequest now : Int) : Int × Int :=
  let sleep := if lastRequest ≠ 0 ∧ now - lastRequest < window then window - (now - lastRequest) else 0
  (sleep, now + sleep)

/-- Result of `Throttle.RoundTrip`: the returned pair, whether the wrapped
transport was invoked, the `lastRequest` state after the call, and the
pacing sleep actually waited out (0 when none). -/
structure ThrottleResult where
  resp : Option Response
  err : GoError
  called : Bool
  lastRequest : Int
  slept : Int
deriving DecidableEq

/-- `Throttle.RoundTrip`.  `qps` is the `float64` QPS field, modelled as a
rational (every finite float is one; the `QPS <= 0` test coincides);
`window` is the integer value of `time.Duration(float64(time.Second) / t.QPS)`,
passed separately since its float computation is not modelled.
`cancelDuringSleep` is whether `ctx.Done()` wins the pacing select;
`ctxCancelErr` is the value of `ctx.Err()` then. -/
def throttleRoundTrip (qps : ℚ) (window lastRequest now : Int)
    (transport : Unit → Option Response × GoError)
    (cancelDuringSleep : Bool) (ctxCancelErr : GoError) : ThrottleResult :=
  if qps ≤ 0 then
    let o := transport ()
    ⟨o.1, o.2, true, lastRequest, 0⟩
  else
    let s := throttleStep window lastRequest now
    if 0 < s.1 then
      if cancelDuringSleep then ⟨Option.none, ctxCancelErr, false, s.2, 0⟩
      else
        let o := transport ()
        ⟨o.1, o.2, true, s.2, s.1⟩
    else
      let o := transport ()
      ⟨o.1, o.2, true, s.2, 0⟩

/-- Result of `Log.RoundTrip`: the returned pair and whether the wrapped
transport was invoked.  The slog output and the body-wrapping logger are
I/O effects outside the shallow embedding and are not modelled. -/
structure LogResult where
  resp : Option Response
  err : GoError
  called : Bool
deriving DecidableEq

/-- `Log.RoundTrip`: `rid` is `req.Header.Get("X-Request-ID")` (empty
string when the header is absent); an empty id returns the error
`roundtrippers.Log requires roundtrippers.RequestID` without calling the
wrapped transport, otherwise the transport's pair is returned. -/
def logRoundTrip (rid : String) (transport : Unit → Option Response × GoError) : LogResult :=
  if rid = "" then
    ⟨Option.none, GoError.other "roundtrippers.Log requires roundtrippers.RequestID", false⟩
  else
    let o := transport ()
    ⟨o.1, o.2, true⟩


theorem wrap64_eq_self (n : Int) (h0 : 0 ≤ n) (h1 : n < 2 ^ 63) : wrap64 n = n := by
  unfold wrap64
  have ha : (0 : Int) ≤ n + 2 ^ 63 := by omega
  have hb : n + 2 ^ 63 < 2 ^ 64 := by omega
  rw [Int.emod_eq_of_lt ha hb]
  omega

theorem shouldRetry_resp_none (e : ExponentialBackoff) (cancelled : Bool)
    (now start : Int) (tryIdx : Nat) (err : GoError) :
    e.ShouldRetry cancelled now start tryIdx err Option.none = false := by
  unfold ExponentialBackoff.ShouldRetry
  split <;> rfl

/-- C1: `ExponentialBackoff.ShouldRetry(ctx, start, try, err, resp)` returns
true if and only if: `try < MaxTryCount`, the elapsed time since `start`
does not exceed `MaxDuration`, the context is not cancelled, `err` is not
classified non-retriable, `resp` is non-nil, and `resp`'s status code is
one of 429, 502, 503, 504, 529; in every other case it returns false. -/
theorem shouldRetry_characterization (e : ExponentialBackoff) (cancelled : Bool)
    (now start : Int) (tryIdx : Nat) (err : GoError) (resp : Option Response) :
    e.ShouldRetry cancelled now start tryIdx err resp = true ↔
      ((tryIdx : Int) < e.MaxTryCount ∧ now - start ≤ e.MaxDuration ∧
        cancelled = false ∧ isNotRetriableError err = false ∧
        ∃ resp2, resp = some resp2 ∧
          (resp2.statusCode = 429 ∨ resp2.statusCode = 502 ∨ resp2.statusCode = 503 ∨
            resp2.statusCode = 504 ∨ resp2.statusCode = 529)) := by
  unfold ExponentialBackoff.ShouldRetry
  cases resp with
  | none =>
    constructor
    · intro h
      exfalso
      revert h
      split <;> simp
    · rintro ⟨-, -, -, -, resp2, h, -⟩
      exact Option.noConfusion h
  | some resp2 =>
    split
    case isTrue h =>
      constructor
      · intro hfalse
        exact Bool.noConfusion hfalse
      · rintro ⟨h1, h2, h3, h4, resp3, heq, h5⟩
        rcases h with h | h | h | h
        · omega
        · omega
        · rw [h3] at h
          exact Bool.noConfusion h
        · rw [h4] at h
          exact Bool.noConfusion h
    case isFalse h =>
      push_neg at h
      obtain ⟨h1, h2, h3, h4⟩ := h
      simp only [beq_iff_eq, Bool.or_eq_true]
      constructor
      · intro h5
        refine ⟨by omega, by omega, by simpa using h3, by simpa using h4, resp2, rfl, ?_⟩
        tauto
      · rintro ⟨-, -, -, -, resp3, heq, h5⟩
        cases heq
        tauto

/-- C2 (counterexample): with the default base 2, `Backoff(start, 34)` is
not `2^34` seconds: `2^34 * 10^9` nanoseconds overflows `int64` and the
Go duration multiplication wraps to a negative value. -/
theorem backoff_pow_overflow_counterexample :
    ¬ DefaultRetryPolicy.Backoff 0 34 = (2 : Int) ^ 34 * second := by decide

/-- C2 (amended): `ExponentialBackoff.Backoff(start, n)` equals
`Exp^n` seconds for every `n` with `Exp^n * 10^9 < 2^63` (with the default
base 2, every `n ≤ 33`); the result is independent of `start`; the default
policy's backoffs for attempts 0, 1, 2 are 1s, 2s, 4s.  Beyond that range
the `int64` nanosecond multiplication overflows. -/
theorem backoff_pow_amended (e : ExponentialBackoff) (start start2 : Int) (n : Nat)
    (h : (e.Exp : Int) ^ n * second < 2 ^ 63) :
    e.Backoff start n = (e.Exp : Int) ^ n * second ∧
      e.Backoff start n = e.Backoff start2 n ∧
      DefaultRetryPolicy.Backoff start 0 = second ∧
      DefaultRetryPolicy.Backoff start 1 = 2 * second ∧
      DefaultRetryPolicy.Backoff start 2 = 4 * second := by
  have h0 : (0 : Int) ≤ (e.Exp : Int) ^ n * second :=
    mul_nonneg (pow_nonneg (Int.natCast_nonneg e.Exp) n) (by decide)
  refine ⟨wrap64_eq_self _ h0 h, rfl, ?_, ?_, ?_⟩
  · show wrap64 ((2 : Int) ^ 0 * second) = second
    decide
  · show wrap64 ((2 : Int) ^ 1 * second) = 2 * second
    decide
  · show wrap64 ((2 : Int) ^ 2 * second) = 4 * second
    decide

theorem backoff_pow_amended_witness :
    DefaultRetryPolicy.Backoff 0 3 = (2 : Int) ^ 3 * second ∧
      DefaultRetryPolicy.Backoff 0 3 = DefaultRetryPolicy.Backoff 5 3 := by
  have h := backoff_pow_amended DefaultRetryPolicy 0 5 3 (by decide)
  exact ⟨h.1, h.2.1⟩

/-- C3: with the default policy (`MaxTryCount = 3`) and a transport
returning 503 on the first two attempts and 200 on the third,
`Retry.RoundTrip` returns the 200 response with a nil error, invokes the
wrapped transport exactly three times, and performs exactly two backoff
sleeps (1s then 2s). -/
theorem retry_503_503_200_three_attempts :
    Retry.RoundTrip ⟨Option.none⟩
      (fun n _ => if n < 2 then (some ⟨503, ""⟩, GoError.nil) else (some ⟨200, ""⟩, GoError.nil))
      (fun _ => 0) (fun _ => false) (fun _ => false) (fun _ => Option.none) 0
      ⟨Option.none, Option.none⟩
    = ⟨some ⟨200, ""⟩, GoError.nil, [Option.none, Option.none, Option.none],
        [second, 2 * second]⟩ := by
  decide

/-- C4 (counterexample): the `Retry-After` value `"10000000000"` parses as
the positive integer 10^10, yet the selected sleep is not 10^10 seconds:
`time.Second * time.Duration(10^10)` overflows `int64` and wraps to a
negative duration. -/
theorem retryAfter_overflow_counterexample :
    parseInt64 "10000000000" = some 10000000000 ∧ (0 : Int) < 10000000000 ∧
      retrySleep DefaultRetryPolicy (fun _ => Option.none) 0 0 0 (some ⟨429, "10000000000"⟩)
        ≠ 10000000000 * second := by
  decide

/-- C4 (amended): when the previous response carries a `Retry-After`
header parsing as a positive integer `k` with `k * 10^9 < 2^63`
(`k ≤ 9223372036`), the retry wait is `k` seconds instead of the policy's
backoff; a value that is non-positive, or parses neither as an integer
nor (per the RFC 1123 date oracle `pd`) as a date in the strict future,
is ignored in favour of `policy.Backoff(start, try)`.  For larger `k` the
`int64` duration multiplication overflows. -/
theorem retryAfter_amended (e : ExponentialBackoff) (pd : String → Option Int)
    (now start : Int) (tryIdx : Nat) (r : Response) (k : Int) :
    (parseInt64 r.retryAfter = some k → 0 < k → second * k < 2 ^ 63 →
      retrySleep e pd now start tryIdx (some r) = k * second) ∧
    (parseInt64 r.retryAfter = some k → k ≤ 0 →
      retrySleep e pd now start tryIdx (some r) = e.Backoff start tryIdx) ∧
    (parseInt64 r.retryAfter = Option.none →
      (∀ tm, pd r.retryAfter = some tm → tm - now ≤ 0) →
      retrySleep e pd now start tryIdx (some r) = e.Backoff start tryIdx) := by
  refine ⟨?_, ?_, ?_⟩
  · intro hp hk hlt
    simp only [retrySleep, parseRetryAfterHeader, hp, if_pos hk]
    show wrap64 (second * k) = k * second
    rw [wrap64_eq_self _ (mul_nonneg (by decide) (le_of_lt hk)) hlt]
    ring
  · intro hp hk
    simp only [retrySleep, parseRetryAfterHeader, hp]
    rw [if_neg (by omega : ¬ (0 : Int) < k)]
    rfl
  · intro hp hd
    simp only [retrySleep, parseRetryAfterHeader, hp]
    cases hpd : pd r.retryAfter with
    | none => rfl
    | some tm =>
      have hneg : ¬ (0 : Int) < tm - now := by
        have := hd tm hpd
        omega
      simp [hneg]

theorem retryAfter_amended_witness :
    retrySleep DefaultRetryPolicy (fun _ => Option.none) 0 0 0 (some ⟨429, "7"⟩) = 7 * second ∧
      retrySleep DefaultRetryPolicy (fun _ => Option.none) 0 0 0 (some ⟨429, "0"⟩)
        = DefaultRetryPolicy.Backoff 0 0 ∧
      retrySleep DefaultRetryPolicy (fun _ => Option.none) 0 0 0 (some ⟨429, "soon"⟩)
        = DefaultRetryPolicy.Backoff 0 0 := by
  refine ⟨?_, ?_, ?_⟩
  · exact (retryAfter_amended DefaultRetryPolicy (fun _ => Option.none) 0 0 0 ⟨429, "7"⟩ 7).1
      (by decide) (by decide) (by decide)
  · exact (retryAfter_amended DefaultRetryPolicy (fun _ => Option.none) 0 0 0 ⟨429, "0"⟩ 0).2.1
      (by decide) (by decide)
  · exact (retryAfter_amended DefaultRetryPolicy (fun _ => Option.none) 0 0 0 ⟨429, "soon"⟩ 0).2.2
      (by decide) (fun tm h => nomatch h)

theorem retryLoop_sent_const (e : ExponentialBackoff)
    (transport : Nat → Option ByteStream → Option Response × GoError)
    (clock : Nat → Int) (ctxErr : Nat → Bool) (waitCancel : Nat → Bool)
    (pd : String → Option Int) (start : Int) (bs : List UInt8) :
    ∀ (fuel : Nat) (body : Option ByteStream) (resp : Option Response) (err : GoError) (tryIdx : Nat),
      ∀ x ∈ (retryLoop e transport clock ctxErr waitCancel pd start (some (Except.ok bs))
          fuel body resp err tryIdx).sent, x = some (Except.ok bs) := by
  intro fuel
  induction fuel with
  | zero =>
    intro body resp err tryIdx x hx
    simp [retryLoop] at hx
  | succ fuel ih =>
    intro body resp err tryIdx x hx
    simp only [retryLoop] at hx
    split at hx
    · split at hx
      · simp at hx
      · simp only [List.mem_cons] at hx
        rcases hx with hx | hx
        · exact hx
        · exact ih _ _ _ _ x hx
    · simp at hx

/-- C5: for a request carrying a body but no replay factory,
`Retry.RoundTrip` buffers the body before the first attempt and
synthesizes a replay factory, so the body handed to the wrapped transport
on every attempt equals the original body's bytes; if reading the body
fails, it returns a nil response and that I/O error with no attempt
issued. -/
theorem retry_body_replay (r : Retry)
    (transport : Nat → Option ByteStream → Option Response × GoError)
    (clock : Nat → Int) (ctxErr : Nat → Bool) (waitCancel : Nat → Bool)
    (pd : String → Option Int) (start : Int) (stream : ByteStream) :
    (∀ bs, stream = Except.ok bs →
      (Retry.RoundTrip r transport clock ctxErr waitCancel pd start
          ⟨some stream, Option.none⟩).sent
        = List.replicate
            (Retry.RoundTrip r transport clock ctxErr waitCancel pd start
              ⟨some stream, Option.none⟩).sent.length
            (some (Except.ok bs))) ∧
    (∀ er, stream = Except.error er →
      Retry.RoundTrip r transport clock ctxErr waitCancel pd start
          ⟨some stream, Option.none⟩
        = ⟨Option.none, er, [], []⟩) := by
  constructor
  · intro bs hbs
    subst hbs
    rw [List.eq_replicate_length]
    intro b hb
    simp only [Retry.RoundTrip, cloneRequestWithBody] at hb
    simp only [List.mem_cons] at hb
    rcases hb with hb | hb
    · exact hb
    · exact retryLoop_sent_const _ _ _ _ _ _ _ _ _ _ _ _ _ b hb
  · intro er her
    subst her
    rfl

theorem retry_body_replay_witness :
    (Retry.RoundTrip ⟨Option.none⟩ (fun _ _ => (some ⟨503, ""⟩, GoError.nil)) (fun _ => 0)
        (fun _ => false) (fun _ => false) (fun _ => Option.none) 0
        ⟨some (Except.ok [97]), Option.none⟩).sent
      = List.replicate
          (Retry.RoundTrip ⟨Option.none⟩ (fun _ _ => (some ⟨503, ""⟩, GoError.nil)) (fun _ => 0)
            (fun _ => false) (fun _ => false) (fun _ => Option.none) 0
            ⟨some (Except.ok [97]), Option.none⟩).sent.length
          (some (Except.ok [97])) ∧
    Retry.RoundTrip ⟨Option.none⟩ (fun _ _ => (some ⟨503, ""⟩, GoError.nil)) (fun _ => 0)
        (fun _ => false) (fun _ => false) (fun _ => Option.none) 0
        ⟨some (Except.error (GoError.other "read failed")), Option.none⟩
      = ⟨Option.none, GoError.other "read failed", [], []⟩ :=
  ⟨(retry_body_replay ⟨Option.none⟩ (fun _ _ => (some ⟨503, ""⟩, GoError.nil)) (fun _ => 0)
      (fun _ => false) (fun _ => false) (fun _ => Option.none) 0 (Except.ok [97])).1 [97] rfl,
    (retry_body_replay ⟨Option.none⟩ (fun _ _ => (some ⟨503, ""⟩, GoError.nil)) (fun _ => 0)
      (fun _ => false) (fun _ => false) (fun _ => Option.none) 0
      (Except.error (GoError.other "read failed"))).2 (GoError.other "read failed") rfl⟩

/-- C6: if the context is cancelled before an inter-attempt backoff wait
completes (`ctx.Done()` wins the select at iteration `tryIdx`), the retry
loop of `Retry.RoundTrip` aborts and returns the previous attempt's
response and error untouched, issuing no further transport call and
recording no completed sleep. -/
theorem retry_cancel_returns_previous (e : ExponentialBackoff)
    (transport : Nat → Option ByteStream → Option Response × GoError)
    (clock : Nat → Int) (ctxErr : Nat → Bool) (waitCancel : Nat → Bool)
    (pd : String → Option Int) (start : Int) (getBody : Option ByteStream)
    (fuel : Nat) (body : Option ByteStream) (resp : Option Response) (err : GoError) (tryIdx : Nat)
    (h1 : e.ShouldRetry (ctxErr tryIdx) (clock tryIdx) start tryIdx err resp = true)
    (h2 : ∀ e2, getBody ≠ some (Except.error e2))
    (h3 : waitCancel tryIdx = true) :
    retryLoop e transport clock ctxErr waitCancel pd start getBody fuel body resp err tryIdx
      = ⟨resp, err, [], []⟩ := by
  cases fuel with
  | zero => rfl
  | succ fuel =>
    simp only [retryLoop, h1, if_true]
    cases hg : getBody with
    | none => simp [h3]
    | some s =>
      cases s with
      | error e2 => exact absurd hg (h2 e2)
      | ok b => simp [h3]

theorem retry_cancel_returns_previous_witness :
    retryLoop DefaultRetryPolicy (fun _ _ => (some ⟨503, ""⟩, GoError.nil)) (fun _ => 0)
        (fun _ => false) (fun _ => true) (fun _ => Option.none) 0 Option.none 3 Option.none
        (some ⟨503, ""⟩) GoError.nil 0
      = ⟨some ⟨503, ""⟩, GoError.nil, [], []⟩ :=
  retry_cancel_returns_previous DefaultRetryPolicy (fun _ _ => (some ⟨503, ""⟩, GoError.nil))
    (fun _ => 0) (fun _ => false) (fun _ => true) (fun _ => Option.none) 0 Option.none 3
    Option.none (some ⟨503, ""⟩) GoError.nil 0 (by decide) (fun e2 h => nomatch h) rfl

theorem retryLoop_resp_none (e : ExponentialBackoff)
    (transport : Nat → Option ByteStream → Option Response × GoError)
    (clock : Nat → Int) (ctxErr : Nat → Bool) (waitCancel : Nat → Bool)
    (pd : String → Option Int) (start : Int) (getBody : Option ByteStream)
    (fuel : Nat) (body : Option ByteStream) (err : GoError) (tryIdx : Nat) :
    retryLoop e transport clock ctxErr waitCancel pd start getBody fuel body Option.none err tryIdx
      = ⟨Option.none, err, [], []⟩ := by
  cases fuel with
  | zero => rfl
  | succ fuel => simp [retryLoop, shouldRetry_resp_none]

/-- C7: if the wrapped transport returns a nil response with an error
classified non-retriable, `Retry.RoundTrip` returns that error after
exactly one transport invocation, with no retry and no sleep. -/
theorem retry_nonretriable_single_attempt (r : Retry)
    (transport : Nat → Option ByteStream → Option Response × GoError)
    (clock : Nat → Int) (ctxErr : Nat → Bool) (waitCancel : Nat → Bool)
    (pd : String → Option Int) (start : Int) (err : GoError)
    (h1 : transport 0 Option.none = (Option.none, err))
    (h2 : isNotRetriableError err = true) :
    Retry.RoundTrip r transport clock ctxErr waitCancel pd start ⟨Option.none, Option.none⟩
      = ⟨Option.none, err, [Option.none], []⟩ := by
  simp only [Retry.RoundTrip, cloneRequestWithBody, h1, retryLoop_resp_none]

theorem retry_nonretriable_single_attempt_witness :
    Retry.RoundTrip ⟨Option.none⟩
        (fun _ _ => (Option.none,
          GoError.urlError false "Get \"foo://127.0.0.1\": unsupported protocol scheme \"foo\""))
        (fun _ => 0) (fun _ => false) (fun _ => false) (fun _ => Option.none) 0
        ⟨Option.none, Option.none⟩
      = ⟨Option.none,
          GoError.urlError false "Get \"foo://127.0.0.1\": unsupported protocol scheme \"foo\"",
          [Option.none], []⟩ :=
  retry_nonretriable_single_attempt ⟨Option.none⟩
    (fun _ _ => (Option.none,
      GoError.urlError false "Get \"foo://127.0.0.1\": unsupported protocol scheme \"foo\""))
    (fun _ => 0) (fun _ => false) (fun _ => false) (fun _ => Option.none) 0
    (GoError.urlError false "Get \"foo://127.0.0.1\": unsupported protocol scheme \"foo\"")
    rfl (by decide)

/-- C8: with a previous reservation in place (`lastRequest` non-zero), each
pass through the scheduling section reserves a slot at least `window`
after the previous one: when less than `window` has elapsed the sleep is
`window - elapsed` and the new slot is exactly `lastRequest + window`;
when at least `window` has elapsed the sleep is 0 and the slot is `now`. -/
theorem throttle_step_spacing (window lastRequest now : Int)
    (hw : 0 < window) (hl : lastRequest ≠ 0) :
    window ≤ (throttleStep window lastRequest now).2 - lastRequest ∧
      (now - lastRequest < window →
        (throttleStep window lastRequest now).1 = window - (now - lastRequest) ∧
          (throttleStep window lastRequest now).2 = lastRequest + window) ∧
      (window ≤ now - lastRequest →
        (throttleStep window lastRequest now).1 = 0 ∧
          (throttleStep window lastRequest now).2 = now) := by
  unfold throttleStep
  by_cases h : now - lastRequest < window
  · rw [if_pos ⟨hl, h⟩]
    dsimp only
    exact ⟨by omega, fun _ => ⟨rfl, by omega⟩, fun hc => by omega⟩
  · rw [if_neg (fun hand => h hand.2)]
    dsimp only
    exact ⟨by omega, fun hc => by omega, fun _ => ⟨rfl, by omega⟩⟩

theorem throttle_step_spacing_witness :
    (throttleStep 100 50 60).1 = 100 - (60 - 50) ∧ (throttleStep 100 50 60).2 = 50 + 100 :=
  (throttle_step_spacing 100 50 60 (by decide) (by decide)).2.1 (by decide)

/-- C9: if the context is cancelled while a Throttle with `QPS > 0` waits
out a positive pacing sleep, `Throttle.RoundTrip` returns a nil response
and the context's cancellation error without invoking the wrapped
transport; with `QPS <= 0` every request passes straight through, with no
sleep and no change to `lastRequest`. -/
theorem throttle_cancel_passthrough (qps : ℚ) (window lastRequest now : Int)
    (transport : Unit → Option Response × GoError) (cancel : Bool) (cerr : GoError) :
    (0 < qps → 0 < (throttleStep window lastRequest now).1 →
      throttleRoundTrip qps window lastRequest now transport true cerr
        = ⟨Option.none, cerr, false, (throttleStep window lastRequest now).2, 0⟩) ∧
    (qps ≤ 0 →
      throttleRoundTrip qps window lastRequest now transport cancel cerr
        = ⟨(transport ()).1, (transport ()).2, true, lastRequest, 0⟩) := by
  constructor
  · intro hq hs
    unfold throttleRoundTrip
    rw [if_neg (not_le.mpr hq), if_pos hs, if_pos rfl]
  · intro hq
    unfold throttleRoundTrip
    rw [if_pos hq]

theorem throttle_cancel_passthrough_witness :
    throttleRoundTrip 1 100 50 60 (fun _ => (some ⟨200, ""⟩, GoError.nil)) true
        (GoError.other "context canceled")
      = ⟨Option.none, GoError.other "context canceled", false, (throttleStep 100 50 60).2, 0⟩ ∧
    throttleRoundTrip 0 100 50 60 (fun _ => (some ⟨200, ""⟩, GoError.nil)) false
        (GoError.other "context canceled")
      = ⟨some ⟨200, ""⟩, GoError.nil, true, 50, 0⟩ :=
  ⟨(throttle_cancel_passthrough 1 100 50 60 (fun _ => (some ⟨200, ""⟩, GoError.nil)) true
      (GoError.other "context canceled")).1 (by norm_num) (by decide),
    (throttle_cancel_passthrough 0 100 50 60 (fun _ => (some ⟨200, ""⟩, GoError.nil)) false
      (GoError.other "context canceled")).2 le_rfl⟩

/-- C10: `Log.RoundTrip` returns a nil response and a non-nil error
without invoking the wrapped transport whenever the `X-Request-ID` header
is absent (empty); the wrapped transport is invoked exactly when the
header is present. -/
theorem log_requires_request_id (rid : String)
    (transport : Unit → Option Response × GoError) :
    (rid = "" →
      (logRoundTrip rid transport).resp = Option.none ∧
        (logRoundTrip rid transport).err ≠ GoError.nil ∧
        (logRoundTrip rid transport).called = false) ∧
    ((logRoundTrip rid transport).called = true ↔ rid ≠ "") := by
  unfold logRoundTrip
  by_cases h : rid = "" <;> simp [h]

theorem log_requires_request_id_witness :
    (logRoundTrip "" (fun _ => (some ⟨200, ""⟩, GoError.nil))).called = false ∧
      (logRoundTrip "a-request-id" (fun _ => (some ⟨200, ""⟩, GoError.nil))).called = true :=
  ⟨((log_requires_request_id "" (fun _ => (some ⟨200, ""⟩, GoError.nil))).1 rfl).2.2,
    ((log_requires_request_id "a-request-id" (fun _ => (some ⟨200, ""⟩, GoError.nil))).2).mpr
      (by decide)⟩
